import Mathlib

/-!
# Verification of the HIPPO → NMEA converter (`hippo_pigpio.py`)

Shallow embedding of the core of `hippo_pigpio.py`: the frame decoder
(byte unstuffing, frame delimiting, length table, checksum), the message
dispatcher with its five known message types, the navigation state
(`position`, `gps_time`, the 12-slot channel table), and the NMEA sentence
encoders.

Modelling conventions:
* Bytes are `ℕ` (values 0–255); multi-byte little-endian integers are
  assembled exactly as the source does (`b0 + (b1 <<< 8) + ...`).
* Python floats are modelled as exact rationals, represented by the
  executable fraction type `Q` below (numerator/positive denominator, not
  necessarily reduced; all operations keep exact values).  The scale
  constant `11930464.7111` becomes `119304647111 / 10000`.  No claim below
  depends on sub-float-epsilon differences between binary floats and
  exact rationals.
* Python `'{:0k.pf}'` formatting is modelled by rounding to `p` decimal
  places (ties rounded up; no evaluated value below sits on a tie) and
  rendering the digits.  Python renders `int` and `float` values
  differently under `'{}'`; the embedding renders every numeric state
  field through `renderQ`.  No claim inspects the text of a field whose
  rendering depends on that distinction.
* The source's sentence encoders occasionally read the global `position`
  where the parameter `data` was meant (`make_nmea_rmc` line 128,
  `make_nmea_gga` line 82); every call site passes the global as the
  parameter, so reading the parameter's field is observationally equal.
-/

namespace Hippo

abbrev Byte := ℕ

/-! ## Exact rational arithmetic for Python float values

A fraction `num / den` with `den` a positive natural number.  Fractions
are not normalized; all operations are exact on values.  Every value the
source computes keeps a positive denominator (divisors are the positive
literal constants of the source). -/

structure Q where
  num : ℤ
  den : ℕ
deriving DecidableEq, Repr

instance : OfNat Q n := ⟨⟨n, 1⟩⟩

instance : NatCast Q := ⟨fun n => ⟨n, 1⟩⟩

/-- Exact addition of fractions. -/
def Q.add (a b : Q) : Q := ⟨a.num * b.den + b.num * a.den, a.den * b.den⟩

instance : Add Q := ⟨Q.add⟩

/-- Exact negation. -/
def Q.neg (a : Q) : Q := ⟨-a.num, a.den⟩

instance : Neg Q := ⟨Q.neg⟩

/-- Exact subtraction. -/
def Q.sub (a b : Q) : Q := a + (-b)

instance : Sub Q := ⟨Q.sub⟩

/-- Exact multiplication. -/
def Q.mul (a b : Q) : Q := ⟨a.num * b.num, a.den * b.den⟩

instance : Mul Q := ⟨Q.mul⟩

/-- Exact division; the divisor's sign moves into the numerator. -/
def Q.div (a b : Q) : Q :=
  ⟨(if b.num < 0 then -1 else 1) * a.num * b.den, a.den * b.num.natAbs⟩

instance : Div Q := ⟨Q.div⟩

/-- Value comparison `a < b` by cross-multiplication (decidable, and a
plain `Bool` so that state-machine conditions evaluate by `decide`). -/
def Q.blt (a b : Q) : Bool := a.num * b.den < b.num * a.den

/-- Absolute value. -/
def Q.abs (a : Q) : Q := ⟨(a.num.natAbs : ℤ), a.den⟩

/-- Floor of the exact value (`Int.fdiv` is floor division). -/
def Q.floor (a : Q) : ℤ := a.num.fdiv a.den

/-- Whether the exact value is an integer. -/
def Q.isInt (a : Q) : Bool := a.num % (a.den : ℤ) == 0

/-! ## Decimal / hexadecimal rendering helpers -/

/-- Decimal digits of a natural number, most significant first; `fuel`
bounds the recursion depth (structural recursion evaluates under `decide`,
well-founded recursion would not). -/
def natDigitsAux : ℕ → ℕ → List Char
  | 0, _ => []
  | f + 1, n =>
      if n < 10 then [Char.ofNat (48 + n)]
      else natDigitsAux f (n / 10) ++ [Char.ofNat (48 + n % 10)]

/-- Decimal digits of a natural number, most significant first. -/
def natDigits (n : ℕ) : List Char := natDigitsAux (n + 1) n

/-- Decimal rendering of a natural number. -/
def natStr (n : ℕ) : String := ⟨natDigits n⟩

/-- Python `'{:02d}'.format n`: pad to (at least) two digits. -/
def pad2 (n : ℕ) : String := if n < 10 then "0" ++ natStr n else natStr n

/-- Python `'{:04d}'.format n`: pad to (at least) four digits. -/
def pad4 (n : ℕ) : String :=
  if n < 10 then "000" ++ natStr n
  else if n < 100 then "00" ++ natStr n
  else if n < 1000 then "0" ++ natStr n
  else natStr n

/-- Uppercase hexadecimal digit for `d < 16`. -/
def hexDigit (d : ℕ) : Char :=
  match d with
  | 0 => '0' | 1 => '1' | 2 => '2' | 3 => '3' | 4 => '4'
  | 5 => '5' | 6 => '6' | 7 => '7' | 8 => '8' | 9 => '9'
  | 10 => 'A' | 11 => 'B' | 12 => 'C' | 13 => 'D' | 14 => 'E'
  | _ => 'F'

/-- Python `'{:02X}'.format n` for `n < 256` (NMEA checksums are < 128). -/
def hexStr2 (n : ℕ) : String := ⟨[hexDigit (n / 16 % 16), hexDigit (n % 16)]⟩

/-- Fixed-point rendering with `prec` decimal places of a nonnegative
rational: Python `'{:.pf}'` (and `'{:02.pf}'`, whose minimum width 2 is
never binding for the values the source formats).  Rounding is half-up;
no value the claims evaluate sits on a tie. -/
def fmtF (prec : ℕ) (q : Q) : String :=
  let scaled : ℤ := (q * ((10 ^ prec : ℕ) : Q) + ⟨1, 2⟩).floor
  let n : ℕ := scaled.toNat
  if prec = 0 then natStr n
  else
    let ip := n / 10 ^ prec
    let fp := n % 10 ^ prec
    let fpStr := natStr fp
    let fpPadded := String.mk (List.replicate (prec - fpStr.length) '0') ++ fpStr
    natStr ip ++ "." ++ fpPadded

/-- Python `'{}'.format` of a numeric state field, rendered as the exact
terminating decimal when the value has one (every value the source
formats does). -/
def renderQ (q : Q) : String :=
  match (List.range 31).find? (fun k => (q * ((10 ^ k : ℕ) : Q)).isInt) with
  | some k =>
      let s := q * ((10 ^ k : ℕ) : Q)
      let n : ℤ := s.num / (s.den : ℤ)
      let sign := if n < 0 then "-" else ""
      let m := n.natAbs
      if k = 0 then sign ++ natStr m ++ ".0"
      else
        let ip := m / 10 ^ k
        let fp := m % 10 ^ k
        let fpStr := natStr fp
        sign ++ natStr ip ++ "." ++
          String.mk (List.replicate (k - fpStr.length) '0') ++ fpStr
  | none => natStr q.num.natAbs ++ "/" ++ natStr q.den

/-! ## Navigation state (source lines 244–265) -/

/-- One populated slot of `position['channel']` (built at lines 523–535). -/
structure Channel where
  prn : ℕ
  visible : Bool
  has_tracked : Bool
  tracking : Bool
  meets_mask : Bool
  snr : ℕ
  azimuth : ℕ
  elevation : ℕ
  almanac : ℕ
  ephemeris : ℕ
deriving DecidableEq, Repr

/-- The `position` dictionary.  Keys present in the initial dict are plain
fields; keys added dynamically by dispatch branches (`tracked_count`,
`fix_source`, `altitude_hold`) are `Option`s, `none` meaning "absent". -/
structure Position where
  position_valid : Bool
  altitude_valid : Bool
  heading_valid : Bool
  speed_valid : Bool
  age : ℕ
  time_of_week : ℕ
  lat : Q
  lon : Q
  alt : Q
  heading : Q
  speed : ℕ
  hdop : Q
  vdop : Q
  pdop : Q
  SV : ℕ
  channel : List (Option Channel)
  tracked_count : Option ℕ
  fix_source : Option ℕ
  altitude_hold : Option ℕ
deriving DecidableEq, Repr

/-- The `gps_time` dictionary: starts empty, every key is optional. -/
structure GpsTime where
  year : Option ℕ
  month : Option ℕ
  day : Option ℕ
  hour : Option ℕ
  minute : Option ℕ
  second : Option ℕ
  offset : Option ℕ
  week : Option ℕ
  time_of_week : Option ℕ
deriving DecidableEq, Repr

/-- Initial `position` (source lines 245–262). -/
def initPosition : Position :=
  { position_valid := false, altitude_valid := false, heading_valid := false
    speed_valid := false, age := 0, time_of_week := 0
    lat := 0, lon := 0, alt := 0, heading := 0, speed := 0
    hdop := 255, vdop := 255, pdop := 255, SV := 0
    channel := List.replicate 12 none
    tracked_count := none, fix_source := none, altitude_hold := none }

/-- Initial `gps_time = {}` (source line 265). -/
def initGpsTime : GpsTime :=
  { year := none, month := none, day := none, hour := none, minute := none
    second := none, offset := none, week := none, time_of_week := none }

/-! ## Small conversions (source lines 30–56, 233–241) -/

/-- `convertToW` (lines 30–39): time of week in ms → (hours, mins, secs, msecs). -/
def convertToW (tow : ℕ) : ℕ × ℕ × ℕ × ℕ :=
  let msecs := tow % 1000
  let tow1 := tow / 1000
  let secs := tow1 % 60
  let tow2 := tow1 / 60
  let mins := tow2 % 60
  let tow3 := tow2 / 60
  let hours := tow3 % 24
  (hours, mins, secs, msecs)

/-- `checksum_nmea` (lines 41–48): XOR of all characters after the leading `$`. -/
def checksum_nmea (data : String) : ℕ :=
  (data.data.drop 1).foldl (fun s c => s ^^^ c.toNat) 0

/-- `decimalToMinutes` (lines 50–56): degrees+minutes rendering of the
absolute value, `'{:02d}'` degrees followed by `'{:02.4f}'` minutes. -/
def decimalToMinutes (coord : Q) : String :=
  let c := coord.abs
  let degrees : ℕ := c.floor.toNat
  let decimal := c - (degrees : Q)
  let minutes := decimal * (60 : Q)
  pad2 degrees ++ fmtF 4 minutes

/-- `check_checksum_hippo` (lines 233–241): additive 8-bit checksum. -/
def check_checksum_hippo (data : List Byte) : Bool × ℕ :=
  let sum := data.foldl (· + ·) 0
  (sum % 256 == 0, sum)

/-! ## Sentence encoders (source lines 59–229) -/

/-- The `HHMMSS`/`HHMMSS.mmm` time field shared by GGA and RMC
(lines 63–68 / 109–114), without its trailing comma. -/
def timeField (data : Position) (gpstime : GpsTime) : String :=
  match gpstime.hour with
  | some h => pad2 h ++ pad2 (gpstime.minute.getD 0) ++ pad2 (gpstime.second.getD 0)
  | none =>
      let (hours, mins, secs, msecs) := convertToW data.time_of_week
      pad2 hours ++ pad2 mins ++ pad2 secs ++ "." ++ pad2 msecs

/-- The `lat,N,lon,E` block shared by GGA and RMC (lines 74–78 / 118–121),
including its trailing comma. -/
def latLonField (data : Position) : String :=
  if data.position_valid then
    decimalToMinutes data.lat ++ "," ++ (if data.lat.blt 0 then "S" else "N") ++ ","
      ++ decimalToMinutes data.lon ++ "," ++ (if data.lon.blt 0 then "W" else "E") ++ ","
  else ",,,,"

/-- `make_nmea_gga` (lines 59–102).  `'hdop' in data` (line 87) is always
true (key present in the initial dict), so the hdop branch is rendered
unconditionally. -/
def make_nmea_gga (data : Position) (gpstime : GpsTime) : String :=
  let output := "$GPGGA," ++ timeField data gpstime ++ ","
  let output := output ++ latLonField data
  let output := output ++ "1,"
  let output := output ++
    (match data.tracked_count with
     | some t => natStr t ++ ","
     | none => ",")
  let output := output ++ fmtF 2 data.hdop ++ ","
  let output := output ++
    (if data.altitude_valid then fmtF 1 data.alt ++ ",M," else ",M,")
  let output := output ++ ",M,"
  let output := output ++ ","
  output ++ "*" ++ hexStr2 (checksum_nmea output)

/-- The RMC sentence body (everything `make_nmea_rmc`, lines 105–139,
accumulates in `output` before appending the checksum).  `'heading' in
position` (line 128) is always true (key present in the initial dict), so
the heading is rendered unconditionally. -/
def rmcBody (data : Position) (gpstime : GpsTime) : String :=
  let output := "$GPRMC," ++ timeField data gpstime ++ ","
  let output := output ++ "A,"
  let output := output ++ latLonField data
  let output := output ++
    (if data.speed_valid then fmtF 2 ((data.speed : Q) * ⟨1943844, 100000000⟩) ++ ","
     else ",")
  let output := output ++ renderQ data.heading ++ ","
  let output := output ++
    (match gpstime.year with
     | some y => pad2 (gpstime.day.getD 0) ++ pad2 (gpstime.month.getD 0)
                   ++ pad2 (y % 100) ++ ","
     | none => ",")
  let output := output ++ ",,"
  output ++ "A"

/-- `make_nmea_rmc` (lines 105–143): the body followed by `*` and the
two-digit hex NMEA checksum of the body (line 141). -/
def make_nmea_rmc (data : Position) (gpstime : GpsTime) : String :=
  rmcBody data gpstime ++ "*" ++ hexStr2 (checksum_nmea (rmcBody data gpstime))

/-- One 4-field satellite block of a GSV sentence (lines 154–167),
including its trailing comma. -/
def gsvSlot (position : Position) (sats : List ℕ) (first i : ℕ) : String :=
  if first + i ≥ sats.length then ",,,,"
  else
    let ch_no := sats.getD (first + i) 0
    match position.channel.getD ch_no none with
    | none => ",,,,"
    | some ch =>
        natStr ch.prn ++ "," ++ natStr ch.elevation ++ "," ++ natStr ch.azimuth ++ ","
          ++ (if ch.tracking then natStr ch.snr ++ "," else ",")

/-- `make_nmea_gsv` (lines 146–172); `msg = msg[:-1]` drops the trailing comma. -/
def make_nmea_gsv (position : Position) (sats : List ℕ) (msg_count msg_n : ℕ) : String :=
  let msg := "$GPGSV," ++ natStr msg_count ++ "," ++ natStr (msg_n + 1) ++ ","
  let msg := msg ++ natStr sats.length ++ ","
  let first := msg_n * 4
  let msg := msg ++ gsvSlot position sats first 0 ++ gsvSlot position sats first 1
               ++ gsvSlot position sats first 2 ++ gsvSlot position sats first 3
  let msg : String := ⟨msg.data.dropLast⟩
  msg ++ "*" ++ hexStr2 (checksum_nmea msg)

/-- `make_nmea_gsa` (lines 175–198).  All three fix-mode branches
(lines 179–185) append the same `'3,'`. -/
def make_nmea_gsa (position : Position) : String :=
  let msg := "$GPGSA,A,"
  let msg := msg ++ "3,"
  let prns := (List.range 12).filterMap (fun i =>
    match position.channel.getD i none with
    | some c => if c.tracking then some c.prn else none
    | none => none)
  let msg := msg ++ String.join (prns.map (fun p => natStr p ++ ","))
  let msg := msg ++ String.mk (List.replicate (12 - prns.length) ',')
  let msg := msg ++ renderQ position.pdop ++ "," ++ renderQ position.hdop ++ ","
               ++ renderQ position.vdop
  msg ++ "*" ++ hexStr2 (checksum_nmea msg)

/-- `make_nmea_vtg` (lines 200–213).  `'heading' in position` is always true. -/
def make_nmea_vtg (position : Position) : String :=
  let msg := "$GPVTG,"
  let msg := msg ++ renderQ position.heading ++ ",,"
  let msg := msg ++ renderQ ((position.speed : Q) * ⟨1943844, 100000000⟩) ++ ","
               ++ renderQ ((position.speed : Q) * ⟨36, 1000⟩) ++ ","
  let msg := msg ++ "A"
  msg ++ "*" ++ hexStr2 (checksum_nmea msg)

/-- `make_nmea_zda` (lines 216–229). -/
def make_nmea_zda (gpstime : GpsTime) : String :=
  let msg := "$GPZDA,"
  let msg := msg ++
    (match gpstime.hour with
     | some h => pad2 h ++ pad2 (gpstime.minute.getD 0) ++ pad2 (gpstime.second.getD 0)
                   ++ "," ++ pad2 (gpstime.day.getD 0) ++ "," ++ pad2 (gpstime.month.getD 0)
                   ++ "," ++ pad4 (gpstime.year.getD 0) ++ ","
     | none => ",,,,")
  let msg := msg ++ ","
  msg ++ "*" ++ hexStr2 (checksum_nmea msg)

/-! ## Message dispatcher (source lines 400–561) -/

/-- The `msg_len` table (lines 272–307): expected data-byte count per
2-byte message identifier. -/
def msg_len (packet : ℕ) : Option ℕ :=
  match packet with
  | 0x1201 => some 4 | 0x1203 => some 24 | 0x1204 => some 16
  | 0x1401 => some 9 | 0x1402 => some 31
  | 0x1601 => some 3 | 0x1602 => some 9
  | 0x2201 => some 31 | 0x2202 => some 5
  | 0x2601 => some 16 | 0x2602 => some 16
  | 0x3002 => some 46 | 0x3101 => some 28
  | 0x3201 => some 18 | 0x3203 => some 15
  | 0x3301 => some 7
  | 0x3603 => some 9 | 0x3604 => some 9 | 0x3605 => some 2
  | 0x3607 => some 10 | 0x3608 => some 9
  | 0x3F01 => some 13 | 0x3003 => some 101
  | 0x2812 => some 26 | 0x2813 => some 50 | 0x2814 => some 26 | 0x2816 => some 74
  | 0x2901 => some 11 | 0x2902 => some 21 | 0x2903 => some 5 | 0x2904 => some 7
  | 0x2905 => some 5 | 0x2907 => some 25 | 0x2908 => some 9
  | _ => none

/-- The coordinate scale `11930464.7111` (= 2^31 / 180, lines 417–418 and
491–492), as an exact rational. -/
def coordScale : Q := ⟨119304647111, 10000⟩

/-- Four little-endian payload bytes assembled and divided by the scale
(lines 413–418 and 487–492).  The source assembles the bytes as a plain
nonnegative integer; no two's-complement sign conversion is performed. -/
def hippoCoord (b0 b1 b2 b3 : Byte) : Q :=
  ((b0 + (b1 <<< 8) + (b2 <<< 16) + (b3 <<< 24) : ℕ) : Q) / coordScale

/-- Channel index clamp (lines 519–521). -/
def clampIndex (index : ℕ) : ℕ := if index > 11 then 11 else index

/-- The channel slot built from a 0x33,0x01 frame (lines 526–535);
`d` is the whole frame, indices as in the source (`data[0+4]` …). -/
def channelOfFrame (d : List Byte) : Channel :=
  { prn := d.getD 4 0
    visible := d.getD 5 0 &&& 0x01 ≠ 0
    has_tracked := d.getD 5 0 &&& 0x04 ≠ 0
    tracking := d.getD 5 0 &&& 0x10 ≠ 0
    meets_mask := d.getD 5 0 &&& 0x40 ≠ 0
    snr := d.getD 6 0
    azimuth := d.getD 7 0
    elevation := d.getD 8 0
    almanac := d.getD 9 0 &&& 0x03
    ephemeris := (d.getD 9 0 &&& 0x0C) >>> 2 }

/-- The `sats` list rebuilt after a channel update (lines 539–544):
indices of visible channels. -/
def satsList (channel : List (Option Channel)) : List ℕ :=
  (List.range 12).filter (fun i =>
    match channel.getD i none with
    | some c => c.visible
    | none => false)

/-- The tracked count rebuilt after a channel update (lines 540–546). -/
def trackingCount (channel : List (Option Channel)) : ℕ :=
  ((List.range 12).filter (fun i =>
    match channel.getD i none with
    | some c => c.tracking
    | none => false)).length

/-- The channel table after a 0x33,0x01 update (lines 519–535): the slot
at the clamped index is replaced wholesale (the source creates the dict if
absent and then assigns every field). -/
def updatedChannel (p : Position) (d : List Byte) : List (Option Channel) :=
  p.channel.set (clampIndex (d.getD 3 0)) (some (channelOfFrame d))

/-- Result of dispatching one frame: the new navigation state, the new
satellite-report throttle clock, and the emitted sentences in order. -/
structure DispatchResult where
  pos : Position
  gt : GpsTime
  last_sat_time : Q
  out : List String
deriving DecidableEq, Repr

/-- The message dispatcher (lines 400–561): branches on `data[1], data[2]`,
updates the navigation state in place and emits sentences.  `now` is the
`time.time()` reading of line 550.  Frame bytes are read with `getD _ 0`;
every frame the decoder actually dispatches is long enough for all the
reads its branch performs (a 2-byte frame has `data[1] = 0x82`, which
matches no branch, mirroring Python's short-circuit `and`). -/
def dispatch (p : Position) (g : GpsTime) (last_sat_time now : Q)
    (d : List Byte) : DispatchResult :=
  if d.getD 1 0 = 0x30 ∧ d.getD 2 0 = 0x02 then
    -- Fast fix data with raw DR (lines 406–434)
    let status := d.getD 3 0
    let gps_age := d.getD 5 0
    let time_of_week := d.getD 6 0 + (d.getD 7 0 <<< 8) + (d.getD 8 0 <<< 16)
                          + (d.getD 9 0 <<< 24)
    let lat := hippoCoord (d.getD 10 0) (d.getD 11 0) (d.getD 12 0) (d.getD 13 0)
    let lon := hippoCoord (d.getD 14 0) (d.getD 15 0) (d.getD 16 0) (d.getD 17 0)
    let alt : Q := ((d.getD 18 0 + (d.getD 19 0 <<< 8) : ℕ) : Q)
    let p' := { p with
      position_valid := status &&& 0x01 ≠ 0
      altitude_valid := status &&& 0x02 ≠ 0
      heading_valid := status &&& 0x04 ≠ 0
      speed_valid := status &&& 0x08 ≠ 0
      age := gps_age, time_of_week := time_of_week
      lat := lat, lon := lon, alt := alt }
    ⟨p', g, last_sat_time, [make_nmea_rmc p' g, make_nmea_vtg p']⟩
  else if d.getD 1 0 = 0x32 ∧ d.getD 2 0 = 0x01 then
    -- UTC time and constellation summary (lines 437–462)
    let g' := { g with
      year := some (d.getD 3 0 + (d.getD 4 0 <<< 8))
      month := some (d.getD 5 0), day := some (d.getD 6 0)
      hour := some (d.getD 7 0), minute := some (d.getD 8 0)
      second := some (d.getD 9 0), offset := some (d.getD 10 0) }
    let pdop := ((d.getD 11 0 + (d.getD 12 0 <<< 8) : ℕ) : Q) * ⟨390625, 100000000⟩
    let hdop := ((d.getD 13 0 + (d.getD 14 0 <<< 8) : ℕ) : Q) * ⟨390625, 100000000⟩
    let vdop := ((d.getD 15 0 + (d.getD 16 0 <<< 8) : ℕ) : Q) * ⟨390625, 100000000⟩
    let p' := { p with SV := d.getD 20 0 &&& 0x0F, pdop := pdop, hdop := hdop, vdop := vdop }
    ⟨p', g', last_sat_time, [make_nmea_zda g', make_nmea_gsa p']⟩
  else if d.getD 1 0 = 0x32 ∧ d.getD 2 0 = 0x03 then
    -- UTC time (lines 465–480)
    let time_of_week := d.getD 4 0 + (d.getD 5 0 <<< 8) + (d.getD 6 0 <<< 16)
                          + (d.getD 7 0 <<< 24)
    let g' := { g with
      time_of_week := some time_of_week
      week := some (d.getD 8 0 + (d.getD 9 0 <<< 8))
      year := some (d.getD 11 0 + (d.getD 12 0 <<< 8))
      month := some (d.getD 13 0), day := some (d.getD 14 0)
      hour := some (d.getD 15 0), minute := some (d.getD 16 0)
      second := some (d.getD 17 0), offset := some (d.getD 10 0) }
    let p' := { p with time_of_week := time_of_week }
    ⟨p', g', last_sat_time, [make_nmea_zda g']⟩
  else if d.getD 1 0 = 0x31 ∧ d.getD 2 0 = 0x01 then
    -- GPS Fix message (lines 483–514)
    let lat := hippoCoord (d.getD 9 0) (d.getD 10 0) (d.getD 11 0) (d.getD 12 0)
    let lon := hippoCoord (d.getD 13 0) (d.getD 14 0) (d.getD 15 0) (d.getD 16 0)
    let alt : Q := ((d.getD 17 0 + (d.getD 18 0 <<< 8) : ℕ) : Q)
    let heading := ((d.getD 19 0 + (d.getD 20 0 <<< 8) : ℕ) : Q) / (32768 : Q)
    let speed := d.getD 21 0 + (d.getD 22 0 <<< 8)
    let status := d.getD 8 0
    let p' := { p with
      fix_source := some (d.getD 7 0 &&& 0x3F)
      altitude_hold := some ((d.getD 7 0 &&& 0xC0) >>> 6)
      position_valid := status &&& 0x01 ≠ 0
      altitude_valid := status &&& 0x02 ≠ 0
      heading_valid := status &&& 0x04 ≠ 0
      speed_valid := status &&& 0x08 ≠ 0
      lat := lat, lon := lon, alt := alt, heading := heading, speed := speed }
    ⟨p', g, last_sat_time, [make_nmea_gsa p', make_nmea_gga p' g]⟩
  else if d.getD 1 0 = 0x33 ∧ d.getD 2 0 = 0x01 then
    -- GPS channel measurement short status (lines 517–556)
    let channel' := updatedChannel p d
    let sats := satsList channel'
    let p' := { p with channel := channel', tracked_count := some (trackingCount channel') }
    if (last_sat_time + 5).blt now then
      let msg_count := (sats.length + 3) / 4
      ⟨p', g, now, (List.range msg_count).map (make_nmea_gsv p' sats msg_count)⟩
    else
      ⟨p', g, last_sat_time, []⟩
  else
    -- Unhandled message (lines 559–564): debug logging only
    ⟨p, g, last_sat_time, []⟩

/-! ## Frame decoder (source lines 322–401) -/

/-- Decoder-loop variables (lines 322–327).  `bytes_read` always equals
`data.length` in the source and is represented by it. -/
structure DecSt where
  in_message : Bool
  data : List Byte
  expected_length : ℕ
  unstuff_next : Bool
deriving DecidableEq, Repr

/-- Full mutable state of the main loop. -/
structure Machine where
  dec : DecSt
  pos : Position
  gt : GpsTime
  last_sat_time : Q
deriving DecidableEq, Repr

/-- Initial state (lines 245, 265, 322–328). -/
def initMachine : Machine :=
  ⟨⟨false, [], 0, false⟩, initPosition, initGpsTime, 0⟩

/-- One iteration of the per-byte loop (lines 337–561).  Returns the new
state, the frames handed to the dispatcher this iteration (`parse_now` is
set and consumed within a single iteration), and the emitted sentences. -/
def processByte (m : Machine) (now : Q) (b0 : Byte) :
    Machine × List (List Byte) × List String :=
  -- lines 342–347: sync byte starts a message and clears the buffer
  let d0 : DecSt := if !m.dec.in_message && b0 == 0x81 then ⟨true, [], 0, false⟩ else m.dec
  if d0.in_message then
    if b0 = 0x80 then
      -- lines 350–352: escape byte, discarded, flags the next byte
      ({ m with dec := { d0 with unstuff_next := true } }, [], [])
    else
      -- lines 355–357: unstuff, then append (lines 359–360)
      let b := if d0.unstuff_next then b0 ||| 0x80 else b0
      let data' := d0.data ++ [b]
      -- lines 362–369: after 3 bytes, look up the expected length
      let el' := if data'.length = 3 then
          match msg_len ((data'.getD 1 0 <<< 8) + data'.getD 2 0) with
          | none => 0
          | some l => l + 5
        else d0.expected_length
      if b = 0x82 then
        if data'.length = el' ∨ el' = 0 then
          -- lines 371–383: complete frame; the checksum is computed and
          -- only logged (do_debug = 0), the frame is dispatched regardless
          let _ := check_checksum_hippo data'
          let r := dispatch m.pos m.gt m.last_sat_time now data'
          (⟨⟨false, data', el', false⟩, r.pos, r.gt, r.last_sat_time⟩, [data'], r.out)
        else
          ({ m with dec := ⟨true, data', el', false⟩ }, [], [])
      else if data'.length = el' then
        -- lines 386–397: expected end without terminator: resynchronize
        (⟨⟨false, [], 0, false⟩, m.pos, m.gt, m.last_sat_time⟩, [], [])
      else
        ({ m with dec := ⟨true, data', el', false⟩ }, [], [])
  else
    (m, [], [])

/-- Run the loop over a byte list, collecting dispatched frames and output. -/
def runBytes (m : Machine) (now : Q) : List Byte → Machine × List (List Byte) × List String
  | [] => (m, [], [])
  | b :: rest =>
      let (m1, fs1, o1) := processByte m now b
      let (m2, fs2, o2) := runBytes m1 now rest
      (m2, fs1 ++ fs2, o1 ++ o2)

/-! ## Byte stuffing -/

/-- The decoder's unstuffing (lines 349–357), as a standalone fold over a
byte list: `0x80` is discarded and sets a one-shot flag; a byte following
the flag is OR'd with `0x80`. -/
def unstuffAux (flag : Bool) : List Byte → List Byte
  | [] => []
  | b :: rest =>
      if b = 0x80 then unstuffAux true rest
      else if flag then (b ||| 0x80) :: unstuffAux false rest
      else b :: unstuffAux false rest

/-- Unstuffing with the flag initially clear (line 327). -/
def unstuff (l : List Byte) : List Byte := unstuffAux false l

/-- Modelled from the spec: the transmitter-side byte stuffing, which is
not part of this repository (the source only decodes).  Per §6 and the
glossary, an escape byte `0x80` is inserted before any payload byte that
collides with the frame-delimiter/escape values `0x80`/`0x81`/`0x82`,
with bit `0x80` cleared so that OR-ing `0x80` back recovers the byte. -/
def stuffByte (b : Byte) : List Byte :=
  if b = 0x80 ∨ b = 0x81 ∨ b = 0x82 then [0x80, b % 128] else [b]

/-- Modelled from the spec: stuffing of a whole payload. -/
def stuff (l : List Byte) : List Byte := (l.map stuffByte).flatten

/-! ## Concrete frames used in the claim instances -/

/-- The §8 concrete fast-fix frame: identifier `0x30,0x02`, status `0x0F`,
age 0, time-of-week 45 296 123 ms (`FB 29 B3 02`), lat raw `0x02625A08`
(`08 5A 62 02`), lon raw `0xFB5B3D7C` (`7C 3D 5B FB`), altitude raw
`0x00C8` (`C8 00`), remaining payload zero, additive checksum `0x46`
(the 51 frame bytes sum to 0 mod 256), terminator `0x82`. -/
def fastFixFrame : List Byte :=
  [0x81, 0x30, 0x02, 0x0F, 0, 0, 0xFB, 0x29, 0xB3, 0x02,
   0x08, 0x5A, 0x62, 0x02, 0x7C, 0x3D, 0x5B, 0xFB, 0xC8, 0x00]
  ++ List.replicate 29 0 ++ [0x46, 0x82]

/-- A GPS-fix frame (`0x31,0x01`, 33 bytes) whose lon raw is `0xFB5B3D7C`
(most significant bit set); checksum `0xBC` makes the byte sum 0 mod 256. -/
def gpsFixFrame : List Byte :=
  [0x81, 0x31, 0x01, 0, 0, 0, 0, 0, 0x0F, 0, 0, 0, 0,
   0x7C, 0x3D, 0x5B, 0xFB] ++ List.replicate 14 0 ++ [0xBC, 0x82]

/-- A channel short-status frame (`0x33,0x01`, 12 bytes) for channel
index 0, PRN 1, flag byte `0x01` (visible only); checksum `0xC7`. -/
def chanFrameVisible : List Byte :=
  [0x81, 0x33, 0x01, 0, 1, 0x01, 0, 0, 0, 0, 0xC7, 0x82]

/-- A channel short-status frame (`0x33,0x01`, 12 bytes) for channel
index 3, PRN 7, flag byte `0x11` (visible + tracking), SNR 42;
checksum `0x84`. -/
def chanFrameIdx3 : List Byte :=
  [0x81, 0x33, 0x01, 3, 7, 0x11, 42, 0, 0, 0, 0x84, 0x82]

/-- A machine mid-frame: the buffer holds `0x81 0x99 0x99` (an unknown
message identifier, so the expected length is 0 = scan-to-terminator) and
the bytes seen so far sum to a value that a final `0x82` cannot bring to
0 mod 256 — the completed frame's checksum will fail. -/
def badChecksumMachine : Machine :=
  ⟨⟨true, [0x81, 0x99, 0x99], 0, false⟩, initPosition, initGpsTime, 0⟩

/-- Decoder-state invariant maintained by the loop: inside a message the
buffer is never empty (the sync byte itself is appended on entry). -/
def DecInv (m : Machine) : Prop := m.dec.in_message = true → m.dec.data ≠ []

/-- Prefix test on the character lists of two strings. -/
def strPrefix : List Char → List Char → Bool
  | [], _ => true
  | _ :: _, [] => false
  | a :: as, b :: bs => if a = b then strPrefix as bs else false

/-- NMEA checksum well-formedness checker: the sentence starts with `$`
and ends with `*` followed by the two uppercase hex digits of the XOR of
every byte between the `$` and the `*`. -/
def nmeaChecksumOk (s : String) : Bool :=
  let cs := s.data
  let n := cs.length
  let body := cs.take (n - 3)
  let tail := cs.drop (n - 3)
  if cs.headD ' ' = '$' ∧ tail = '*' :: (hexStr2 (checksum_nmea ⟨body⟩)).data
  then true else false

/-! ## Helper lemmas -/

/-- Characters produced by `natDigitsAux` are decimal digits, hence not
commas. -/
theorem natDigitsAux_ne_comma : ∀ f n : ℕ, ∀ c ∈ natDigitsAux f n, c ≠ ',' := by
  intro f
  induction f with
  | zero => intro n c hc; simp [natDigitsAux] at hc
  | succ f ih =>
    intro n c hc
    rw [natDigitsAux] at hc
    split at hc
    · simp only [List.mem_singleton] at hc
      subst hc
      have h10 : n < 10 := by assumption
      interval_cases n <;> decide
    · rcases List.mem_append.mp hc with h | h
      · exact ih (n / 10) c h
      · simp only [List.mem_singleton] at h
        subst h
        have h10 : n % 10 < 10 := Nat.mod_lt _ (by omega)
        set k := n % 10 with hk
        interval_cases k <;> decide

/-- Characters produced by `natDigits` are decimal digits, hence not commas. -/
theorem natDigits_ne_comma (n : ℕ) : ∀ c ∈ natDigits n, c ≠ ',' :=
  natDigitsAux_ne_comma (n + 1) n

/-- Characters of `pad2` are never commas. -/
theorem pad2_ne_comma (n : ℕ) : ∀ c ∈ (pad2 n).data, c ≠ ',' := by
  intro c hc
  unfold pad2 at hc
  split at hc
  · rw [String.data_append] at hc
    rcases List.mem_append.mp hc with h | h
    · simp only [show ("0" : String).data = ['0'] from rfl, List.mem_singleton] at h
      subst h; decide
    · exact natDigits_ne_comma n c h
  · exact natDigits_ne_comma n c hc

/-- Characters of the RMC/GGA time field are never commas. -/
theorem timeField_ne_comma (p : Position) (g : GpsTime) :
    ∀ c ∈ (timeField p g).data, c ≠ ',' := by
  intro c hc
  unfold timeField at hc
  split at hc
  · simp only [String.data_append] at hc
    rcases List.mem_append.mp hc with h | h
    · rcases List.mem_append.mp h with h' | h'
      · exact pad2_ne_comma _ c h'
      · exact pad2_ne_comma _ c h'
    · exact pad2_ne_comma _ c h
  · simp only [String.data_append] at hc
    rcases List.mem_append.mp hc with h | h
    · rcases List.mem_append.mp h with h' | h'
      · rcases List.mem_append.mp h' with h'' | h''
        · rcases List.mem_append.mp h'' with h3 | h3
          · exact pad2_ne_comma _ c h3
          · exact pad2_ne_comma _ c h3
        · exact pad2_ne_comma _ c h''
      · simp only [show ("." : String).data = ['.'] from rfl, List.mem_singleton] at h'
        subst h'; decide
    · exact pad2_ne_comma _ c h

/-- Characters of `hexStr2` are hex digits, never commas. -/
theorem hexStr2_ne_comma (n : ℕ) : ∀ c ∈ (hexStr2 n).data, c ≠ ',' := by
  intro c hc
  unfold hexStr2 at hc
  have hd : ∀ d : ℕ, hexDigit d ≠ ',' := by
    intro d
    unfold hexDigit
    split <;> decide
  simp only [List.mem_cons, List.mem_singleton, List.not_mem_nil, or_false] at hc
  rcases hc with h | h <;> (subst h; exact hd _)

/-- Unstuffing a stuffed payload recovers the payload. -/
theorem unstuff_stuff_eq (l : List Byte) : unstuff (stuff l) = l := by
  unfold unstuff stuff
  induction l with
  | nil => rfl
  | cons b rest ih =>
    by_cases hsp : b = 0x80 ∨ b = 0x81 ∨ b = 0x82
    · rcases hsp with h | h | h <;> subst h <;>
        simpa [stuffByte, unstuffAux] using ih
    · have hb80 : b ≠ 0x80 := fun h => hsp (Or.inl h)
      simp only [List.map_cons, List.flatten_cons, stuffByte, if_neg hsp,
        List.singleton_append, unstuffAux, if_neg hb80, if_neg (Bool.false_ne_true)]
      simpa [unstuffAux] using ih

/-! ## Claim theorems -/

/-- C7: for every input index byte 0–255 of a channel short status
message, the clamped channel index lies in [0,11], and every index byte
greater than 11 is clamped to exactly 11 (source lines 519–521). -/
theorem channel_index_always_clamped (b : ℕ) (hb : b < 256) :
    clampIndex b ≤ 11 ∧ (b > 11 → clampIndex b = 11) := by
  unfold clampIndex
  split <;> omega

/-- Witness for C7 at index byte 200. -/
theorem channel_index_always_clamped_witness :
    (200 : ℕ) < 256 ∧ clampIndex 200 ≤ 11 ∧ (200 > 11 → clampIndex 200 = 11) :=
  ⟨by decide, channel_index_always_clamped 200 (by decide)⟩

/-- C4: for every byte sequence framed as `0x81`, stuffed payload, `0x82`,
applying the decoder's unstuffing (`0x80` discarded, setting a one-shot
flag; the byte following the flag OR'd with `0x80`) and then re-stuffing
the decoded payload reproduces the original stuffed byte sequence. -/
theorem unstuff_restuff_roundtrip (payload : List Byte)
    (_hb : ∀ b ∈ payload, b < 256) :
    0x81 :: (stuff (unstuff (stuff payload)) ++ [0x82]) =
      0x81 :: (stuff payload ++ [0x82]) := by
  rw [unstuff_stuff_eq]

/-- Witness for C4 on the payload `[0x05, 0x81, 0x90]` (which contains a
byte that must be stuffed and a high byte that is passed through). -/
theorem unstuff_restuff_roundtrip_witness :
    (∀ b ∈ [0x05, 0x81, 0x90], b < 256) ∧
    0x81 :: (stuff (unstuff (stuff [0x05, 0x81, 0x90])) ++ [0x82]) =
      0x81 :: (stuff [0x05, 0x81, 0x90] ++ [0x82]) :=
  ⟨by decide, unstuff_restuff_roundtrip [0x05, 0x81, 0x90] (by decide)⟩

/-- C1 (code bug, evaluated at the failing input): the source assembles
the four little-endian latitude/longitude bytes as a plain nonnegative
integer with no two's-complement conversion, so a raw value with the most
significant bit set — here `0xFB5B3D7C`, sent through both the fast-fix
(`0x30,0x02`) and the GPS-fix (`0x31,0x01`) branch — decodes to a
positive coordinate, where the claim (and the source's own range comments
and its `S`/`W` hemisphere logic) require a negative one. -/
theorem msb_set_coordinate_decodes_positive :
    2 ^ 31 ≤ 0xFB5B3D7C ∧
    Q.blt 0 (dispatch initPosition initGpsTime 0 0 fastFixFrame).pos.lon = true ∧
    Q.blt 0 (dispatch initPosition initGpsTime 0 0 gpsFixFrame).pos.lon = true := by
  refine ⟨by norm_num, by decide, by decide⟩

/-- C3 (counterexample): dispatching the §8 fast-fix frame does not emit
an RMC sentence beginning `$GPRMC,122136.123,A,1000.7400,N,1000.7400,W,`
as claimed — the time of week 45 296 123 ms is 12:34:56.123, the lat raw
`0x02625A08` is ≈ 3.35° (not ≈ 10.0123° at the stated scale), and the
decoded lon is not negative (unsigned assembly, also the subject of C1);
in particular the claimed `lat ≈ 10.0123` fails (the actual lat is below
9°) and the claimed `lon ≈ −10.0123` fails (the actual lon is ≥ 0). -/
theorem fastfix_scenario_refuted :
    strPrefix "$GPRMC,122136.123,A,1000.7400,N,1000.7400,W,".data
      ((dispatch initPosition initGpsTime 0 0 fastFixFrame).out.getD 0 "").data = false ∧
    Q.blt (dispatch initPosition initGpsTime 0 0 fastFixFrame).pos.lon 0 = false ∧
    Q.blt (dispatch initPosition initGpsTime 0 0 fastFixFrame).pos.lat ⟨9, 1⟩ = true := by
  refine ⟨by decide, by decide, by decide⟩

/-- C3 (amended): the §8 fast-fix frame decodes to a `Position` with all
four validity flags true, alt = 200.0, lat = 40000008 / 11930464.7111
(≈ 3.3528°) and lon = 4217060732 / 11930464.7111 (≈ +353.47°, the code's
unsigned assembly of `0xFB5B3D7C`), and its dispatch emits exactly two
sentences: an RMC sentence beginning `$GPRMC,123456.123,A,` whose
checksum is the XOR of its body, followed by a VTG sentence. -/
theorem fastfix_scenario_actual_behavior :
    (dispatch initPosition initGpsTime 0 0 fastFixFrame).pos.position_valid = true ∧
    (dispatch initPosition initGpsTime 0 0 fastFixFrame).pos.altitude_valid = true ∧
    (dispatch initPosition initGpsTime 0 0 fastFixFrame).pos.heading_valid = true ∧
    (dispatch initPosition initGpsTime 0 0 fastFixFrame).pos.speed_valid = true ∧
    (dispatch initPosition initGpsTime 0 0 fastFixFrame).pos.alt = ((200 : ℕ) : Q) ∧
    (dispatch initPosition initGpsTime 0 0 fastFixFrame).pos.lat
        = ⟨400000080000, 119304647111⟩ ∧
    (dispatch initPosition initGpsTime 0 0 fastFixFrame).pos.lon
        = ⟨42170607320000, 119304647111⟩ ∧
    (dispatch initPosition initGpsTime 0 0 fastFixFrame).out.length = 2 ∧
    strPrefix "$GPRMC,123456.123,A,".data
      ((dispatch initPosition initGpsTime 0 0 fastFixFrame).out.getD 0 "").data = true ∧
    nmeaChecksumOk ((dispatch initPosition initGpsTime 0 0 fastFixFrame).out.getD 0 "") = true ∧
    strPrefix "$GPVTG,".data
      ((dispatch initPosition initGpsTime 0 0 fastFixFrame).out.getD 1 "").data = true := by
  refine ⟨by decide, by decide, by decide, by decide, by decide, by decide, by decide,
    by decide, by decide, by decide, by decide⟩

/-- One step of the byte loop preserves the decoder invariant, and every
frame it hands to the dispatcher has at least 2 bytes. -/
theorem processByte_preserves (m : Machine) (now : Q) (b : Byte) (h : DecInv m) :
    DecInv (processByte m now b).1 ∧ ∀ f ∈ (processByte m now b).2.1, 2 ≤ f.length := by
  unfold DecInv at h ⊢
  by_cases hsync : (!m.dec.in_message && b == 0x81) = true
  · obtain ⟨hmsg, hb⟩ : m.dec.in_message = false ∧ b = 0x81 := by
      simpa [Bool.and_eq_true, Bool.not_eq_true'] using hsync
    subst hb
    simp [processByte, hmsg]
  · simp only [processByte, if_neg hsync]
    by_cases hin : m.dec.in_message = true
    · have hdata : m.dec.data ≠ [] := h hin
      have hlen1 : 1 ≤ m.dec.data.length := List.length_pos.mpr hdata
      simp only [hin, if_true]
      by_cases h80 : b = 0x80
      · simp [h80, hin, hdata]
      · simp only [if_neg h80]
        set b' := if m.dec.unstuff_next then b ||| 0x80 else b with hb'
        set el' := if (m.dec.data ++ [b']).length = 3 then
            match msg_len ((m.dec.data ++ [b']).getD 1 0 <<< 8 + (m.dec.data ++ [b']).getD 2 0) with
            | none => 0
            | some l => l + 5
          else m.dec.expected_length with hel'
        simp only [List.length_append, List.length_singleton]
        by_cases h82 : b' = 0x82
        · simp only [if_pos h82]
          by_cases hc : m.dec.data.length + 1 = el' ∨ el' = 0
          · simp only [if_pos hc]
            refine ⟨fun hfalse => by simp at hfalse, ?_⟩
            intro f hf
            simp only [List.mem_singleton] at hf
            subst hf
            simp only [List.length_append, List.length_singleton]
            omega
          · simp only [if_neg hc]
            exact ⟨fun _ => by simp [hdata], by simp⟩
        · simp only [if_neg h82]
          by_cases hc : m.dec.data.length + 1 = el'
          · simp [if_pos hc]
          · simp only [if_neg hc]
            exact ⟨fun _ => by simp [hdata], by simp⟩
    · simp [hin, h]

/-- Running the byte loop from any invariant state only dispatches frames
of length at least 2. -/
theorem runBytes_inv_frames (now : Q) :
    ∀ (bs : List Byte) (m : Machine), DecInv m →
      DecInv (runBytes m now bs).1 ∧ ∀ f ∈ (runBytes m now bs).2.1, 2 ≤ f.length := by
  intro bs
  induction bs with
  | nil => intro m h; exact ⟨h, by simp [runBytes]⟩
  | cons b rest ih =>
    intro m h
    obtain ⟨hinv1, hfr1⟩ := processByte_preserves m now b h
    obtain ⟨hinv2, hfr2⟩ := ih (processByte m now b).1 hinv1
    rcases hpb : processByte m now b with ⟨m1, fs1, o1⟩
    rcases hrb : runBytes m1 now rest with ⟨m2, fs2, o2⟩
    rw [hpb] at hinv1 hfr1 hinv2 hfr2
    rw [hrb] at hinv2 hfr2
    refine ⟨?_, ?_⟩
    · simpa [runBytes, hpb, hrb] using hinv2
    · intro f hf
      simp only [runBytes, hpb, hrb, List.mem_append] at hf
      rcases hf with hf | hf
      · exact hfr1 f hf
      · exact hfr2 f hf

/-- C2 (amended): for every input byte sequence, the frame decoder never
dispatches a frame shorter than 2 bytes (the sync byte plus at least one
more byte; frames need not reach 3 bytes — see the counterexample). -/
theorem dispatched_frames_length_ge_two (bs : List Byte) (now : Q) (f : List Byte)
    (hf : f ∈ (runBytes initMachine now bs).2.1) : 2 ≤ f.length :=
  (runBytes_inv_frames now bs initMachine (fun hh => by simp [initMachine] at hh)).2 f hf

/-- Witness for the amended C2 on the stream `0x81 0x30 0x82`, which
dispatches the 3-byte frame `[0x81, 0x30, 0x82]`. -/
theorem dispatched_frames_length_ge_two_witness :
    [0x81, 0x30, 0x82] ∈ (runBytes initMachine 0 [0x81, 0x30, 0x82]).2.1 ∧
    2 ≤ ([0x81, 0x30, 0x82] : List Byte).length :=
  ⟨by decide,
   dispatched_frames_length_ge_two [0x81, 0x30, 0x82] 0 [0x81, 0x30, 0x82] (by decide)⟩

/-- C2 (counterexample): the input `0x81 0x82` makes the decoder dispatch
the 2-byte frame `[0x81, 0x82]` — shorter than the 3 bytes the claim
guarantees (the dispatcher then reads `data[1] = 0x82`, which matches no
message type). -/
theorem two_byte_frame_dispatched :
    (runBytes initMachine 0 [0x81, 0x82]).2.1 = [[0x81, 0x82]] ∧
    ¬ (3 ≤ ([0x81, 0x82] : List Byte).length) := by
  refine ⟨by decide, by decide⟩

/-- C8: dispatching a channel short status (0x33,0x01) frame whose index
byte is 3 leaves every channel slot other than slot 3 exactly as it was,
for every prior navigation state. -/
theorem channel_dispatch_touches_only_indexed_slot
    (p : Position) (g : GpsTime) (lst now : Q) (f : List Byte)
    (h1 : f.getD 1 0 = 0x33) (h2 : f.getD 2 0 = 0x01) (h3 : f.getD 3 0 = 3)
    (_hlen : f.length = 12) (j : ℕ) (_hj : j < 12) (hne : j ≠ 3) :
    (dispatch p g lst now f).pos.channel.getD j none = p.channel.getD j none := by
  have h3ne : (3 : ℕ) ≠ j := fun hh => hne hh.symm
  simp only [dispatch, h1, h2, h3, updatedChannel, clampIndex]
  norm_num
  split <;>
    simp [List.getD_eq_getElem?_getD, List.getElem?_set_ne h3ne]

/-- Witness for C8: the concrete index-3 frame (tracking set, SNR 42)
leaves slot 5 of the initial state unchanged. -/
theorem channel_dispatch_touches_only_indexed_slot_witness :
    chanFrameIdx3.getD 3 0 = 3 ∧
    (dispatch initPosition initGpsTime 0 0 chanFrameIdx3).pos.channel.getD 5 none
      = initPosition.channel.getD 5 none :=
  ⟨by decide,
   channel_dispatch_touches_only_indexed_slot initPosition initGpsTime 0 0 chanFrameIdx3
     (by decide) (by decide) (by decide) (by decide) 5 (by decide) (by decide)⟩

/-- C9: dispatching a valid frame of one of the five known message types
twice in succession yields the same Position and GpsTime (hence the same
12-slot channel table, a field of Position) as dispatching it once,
whatever the throttle clock and wall-clock readings of the second
dispatch are; only the satellite-report throttle clock is excluded. -/
theorem dispatch_idempotent_on_nav_state
    (p : Position) (g : GpsTime) (lst now lst2 now2 : Q) (f : List Byte)
    (hknown : (f.getD 1 0 = 0x30 ∧ f.getD 2 0 = 0x02) ∨
              (f.getD 1 0 = 0x32 ∧ f.getD 2 0 = 0x01) ∨
              (f.getD 1 0 = 0x32 ∧ f.getD 2 0 = 0x03) ∨
              (f.getD 1 0 = 0x31 ∧ f.getD 2 0 = 0x01) ∨
              (f.getD 1 0 = 0x33 ∧ f.getD 2 0 = 0x01))
    (_hsum : (f.foldl (· + ·) 0) % 256 = 0) :
    (dispatch (dispatch p g lst now f).pos (dispatch p g lst now f).gt lst2 now2 f).pos
        = (dispatch p g lst now f).pos ∧
    (dispatch (dispatch p g lst now f).pos (dispatch p g lst now f).gt lst2 now2 f).gt
        = (dispatch p g lst now f).gt := by
  rcases hknown with ⟨h1, h2⟩ | ⟨h1, h2⟩ | ⟨h1, h2⟩ | ⟨h1, h2⟩ | ⟨h1, h2⟩ <;>
    (simp only [dispatch, h1, h2]
     simp [updatedChannel, apply_ite (DispatchResult.pos),
       apply_ite (DispatchResult.gt), List.set_set])

/-- Witness for C9 on the concrete fast-fix frame (checksum-valid). -/
theorem dispatch_idempotent_on_nav_state_witness :
    (fastFixFrame.foldl (· + ·) 0) % 256 = 0 ∧
    (dispatch (dispatch initPosition initGpsTime 0 0 fastFixFrame).pos
        (dispatch initPosition initGpsTime 0 0 fastFixFrame).gt 1 2 fastFixFrame).pos
      = (dispatch initPosition initGpsTime 0 0 fastFixFrame).pos ∧
    (dispatch (dispatch initPosition initGpsTime 0 0 fastFixFrame).pos
        (dispatch initPosition initGpsTime 0 0 fastFixFrame).gt 1 2 fastFixFrame).gt
      = (dispatch initPosition initGpsTime 0 0 fastFixFrame).gt :=
  ⟨by decide,
   (dispatch_idempotent_on_nav_state initPosition initGpsTime 0 0 1 2 fastFixFrame
      (Or.inl ⟨by decide, by decide⟩) (by decide)).1,
   (dispatch_idempotent_on_nav_state initPosition initGpsTime 0 0 1 2 fastFixFrame
      (Or.inl ⟨by decide, by decide⟩) (by decide)).2⟩

/-- Reduction of `dispatch` on a channel short status (0x33,0x01) frame. -/
theorem dispatch_channel_eq (p : Position) (g : GpsTime) (lst now : Q) (f : List Byte)
    (h1 : f.getD 1 0 = 0x33) (h2 : f.getD 2 0 = 0x01) :
    dispatch p g lst now f =
      (if (lst + 5).blt now then
        ⟨{ p with
             channel := updatedChannel p f
             tracked_count := some (trackingCount (updatedChannel p f)) }, g, now,
          (List.range (((satsList (updatedChannel p f)).length + 3) / 4)).map
            (make_nmea_gsv
              { p with
                  channel := updatedChannel p f
                  tracked_count := some (trackingCount (updatedChannel p f)) }
              (satsList (updatedChannel p f))
              (((satsList (updatedChannel p f)).length + 3) / 4))⟩
      else
        ⟨{ p with
             channel := updatedChannel p f
             tracked_count := some (trackingCount (updatedChannel p f)) }, g, lst, []⟩) := by
  simp only [dispatch, h1, h2]
  norm_num

/-- C6 (amended): when a channel short status (0x33,0x01) dispatch finds
N visible satellites and strictly more than 5.0 seconds have elapsed
since the last satellite report, exactly `ceil(N/4)` GSV sentences are
emitted and the throttle clock resets; when at most 5.0 seconds have
elapsed, no GSV sentence is emitted and the clock is unchanged; in the
final sentence every slot past the visible list renders as four empty
fields. -/
theorem gsv_emission_count_and_throttle
    (p : Position) (g : GpsTime) (lst now : Q) (f : List Byte)
    (h1 : f.getD 1 0 = 0x33) (h2 : f.getD 2 0 = 0x01) (_hlen : f.length = 12) :
    ((lst + 5).blt now = true →
       (dispatch p g lst now f).out =
         (List.range (((satsList (updatedChannel p f)).length + 3) / 4)).map
           (make_nmea_gsv
             { p with
                 channel := updatedChannel p f
                 tracked_count := some (trackingCount (updatedChannel p f)) }
             (satsList (updatedChannel p f))
             (((satsList (updatedChannel p f)).length + 3) / 4)) ∧
       (dispatch p g lst now f).out.length
           = ((satsList (updatedChannel p f)).length + 3) / 4 ∧
       (dispatch p g lst now f).last_sat_time = now) ∧
    ((lst + 5).blt now = false →
       (dispatch p g lst now f).out = [] ∧
       (dispatch p g lst now f).last_sat_time = lst) ∧
    (∀ i < 4,
       (satsList (updatedChannel p f)).length ≤
         (((satsList (updatedChannel p f)).length + 3) / 4 - 1) * 4 + i →
       gsvSlot { p with
                   channel := updatedChannel p f
                   tracked_count := some (trackingCount (updatedChannel p f)) }
           (satsList (updatedChannel p f))
           ((((satsList (updatedChannel p f)).length + 3) / 4 - 1) * 4) i = ",,,,") := by
  refine ⟨?_, ?_, ?_⟩
  · intro hb
    rw [dispatch_channel_eq p g lst now f h1 h2]
    simp [hb]
  · intro hb
    rw [dispatch_channel_eq p g lst now f h1 h2]
    simp [hb]
  · intro i hi hcond
    unfold gsvSlot
    rw [if_pos hcond]

/-- Witness for the amended C6: dispatching the concrete visible-channel
frame at `now = 6`, `last = 0` (more than 5 s elapsed) emits
`ceil(1/4) = 1` GSV sentence and resets the clock to 6. -/
theorem gsv_emission_count_and_throttle_witness :
    ((0 : Q) + 5).blt 6 = true ∧
    (satsList (updatedChannel initPosition chanFrameVisible)).length = 1 ∧
    (dispatch initPosition initGpsTime 0 6 chanFrameVisible).out.length
        = ((satsList (updatedChannel initPosition chanFrameVisible)).length + 3) / 4 ∧
    (dispatch initPosition initGpsTime 0 6 chanFrameVisible).last_sat_time = 6 :=
  ⟨by decide, by decide,
   ((gsv_emission_count_and_throttle initPosition initGpsTime 0 6 chanFrameVisible
      (by decide) (by decide) (by decide)).1 (by decide)).2.1,
   ((gsv_emission_count_and_throttle initPosition initGpsTime 0 6 chanFrameVisible
      (by decide) (by decide) (by decide)).1 (by decide)).2.2⟩

/-- C6 (counterexample): with the last report at time 0 and the dispatch
at time exactly 5.0 ("at least 5.0 seconds have elapsed" in the claim's
words), a channel update that leaves one visible satellite emits no GSV
sentence, not the `ceil(1/4) = 1` sentences the claim requires — the code
compares with strict `>`. -/
theorem gsv_throttle_boundary_refuted :
    ((0 : Q) + 5).blt 5 = false ∧
    (satsList (updatedChannel initPosition chanFrameVisible)).length = 1 ∧
    (dispatch initPosition initGpsTime 0 5 chanFrameVisible).out = [] ∧
    (1 + 3) / 4 = 1 := by
  refine ⟨by decide, by decide, by decide, by decide⟩

/-- C5: a byte that completes a frame (terminator `0x82` after unstuffing,
with the buffer at the expected length or the length unknown) makes the
loop dispatch that frame even when its byte sum mod 256 is nonzero: the
machine state and the emitted sentences are exactly the dispatcher's
output, the same as for a checksum-valid frame (the checksum result is
computed and discarded). -/
theorem frame_dispatched_despite_checksum_mismatch
    (m : Machine) (now : Q) (b0 : Byte)
    (hin : m.dec.in_message = true) (hb0 : b0 ≠ 0x80)
    (hb : (if m.dec.unstuff_next then b0 ||| 0x80 else b0) = 0x82)
    (el' : ℕ)
    (hel : el' = if (m.dec.data ++ [0x82]).length = 3 then
        (match msg_len ((m.dec.data ++ [0x82]).getD 1 0 <<< 8
            + (m.dec.data ++ [0x82]).getD 2 0) with
         | none => 0
         | some l => l + 5)
      else m.dec.expected_length)
    (hlen : (m.dec.data ++ [0x82]).length = el' ∨ el' = 0)
    (_hsum : ((m.dec.data ++ [0x82]).foldl (· + ·) 0) % 256 ≠ 0) :
    processByte m now b0 =
      (⟨⟨false, m.dec.data ++ [0x82], el', false⟩,
        (dispatch m.pos m.gt m.last_sat_time now (m.dec.data ++ [0x82])).pos,
        (dispatch m.pos m.gt m.last_sat_time now (m.dec.data ++ [0x82])).gt,
        (dispatch m.pos m.gt m.last_sat_time now (m.dec.data ++ [0x82])).last_sat_time⟩,
       [m.dec.data ++ [0x82]],
       (dispatch m.pos m.gt m.last_sat_time now (m.dec.data ++ [0x82])).out) := by
  subst hel
  simp only [processByte, hin, Bool.not_true, Bool.false_and, Bool.false_eq_true,
    if_false, eq_self_iff_true, if_true, if_neg hb0, hb]
  rw [if_pos hlen]

/-- Witness for C5: from `badChecksumMachine`, the terminator `0x82`
completes the frame `[0x81, 0x99, 0x99, 0x82]`, whose byte sum is 53 mod
256 (checksum failure), and the frame is dispatched anyway. -/
theorem frame_dispatched_despite_checksum_mismatch_witness :
    (([0x81, 0x99, 0x99, 0x82] : List Byte).foldl (· + ·) 0) % 256 ≠ 0 ∧
    (processByte badChecksumMachine 0 0x82).2.1 = [[0x81, 0x99, 0x99, 0x82]] :=
  ⟨by decide,
   by rw [frame_dispatched_despite_checksum_mismatch badChecksumMachine 0 0x82
        rfl (by decide) (by decide) 0 (by decide) (by decide) (by decide)]
      rfl⟩

/-- C10: for every Position and GpsTime — validity flags included — the
RMC encoder renders the status field (the third comma-separated field) as
the literal `A` and the final field before the checksum as the literal
`A`: the sentence is `$GPRMC,` ++ time ++ `,A,` ++ fields ++ `,,A*` ++
checksum, with no comma inside the time field or the checksum digits, so
an invalid fix is never marked `V`. -/
theorem rmc_status_and_mode_always_A (data : Position) (gpstime : GpsTime) :
    ∃ tf mid h,
      make_nmea_rmc data gpstime = "$GPRMC," ++ tf ++ ",A," ++ mid ++ ",,A*" ++ h ∧
      (∀ c ∈ tf.data, c ≠ ',') ∧ (∀ c ∈ h.data, c ≠ ',') ∧ h.length = 2 := by
  refine ⟨timeField data gpstime,
    latLonField data
      ++ (if data.speed_valid then fmtF 2 ((data.speed : Q) * ⟨1943844, 100000000⟩) ++ ","
          else ",")
      ++ (renderQ data.heading ++ ",")
      ++ (match gpstime.year with
          | some y => pad2 (gpstime.day.getD 0) ++ pad2 (gpstime.month.getD 0)
                        ++ pad2 (y % 100) ++ ","
          | none => ","),
    hexStr2 (checksum_nmea (rmcBody data gpstime)),
    ?_, timeField_ne_comma data gpstime, hexStr2_ne_comma _, rfl⟩
  apply String.ext
  simp only [make_nmea_rmc, rmcBody, String.data_append, List.append_assoc]
  rfl

end Hippo
